import Mathlib

/-!
Shallow embedding of the four Google Workspace export scripts
(`gw_groups_backup.py`, `gw_gg_settings_backup.py`,
`gw_export_users_with_forwarding.py`, `gw_export_shared_drives_acls.py`).

Remote API calls are modelled as oracles: a retried call takes
`op : Nat → Res HttpError α` giving the outcome of the `attempt`-th
invocation; a paginated listing takes a fetch function from the page
cursor to the page response.  Each embedded function returns, besides its
Python return value (with a raised exception modelled as `Res.err`), the
number of invocations of the remote operation and the list of sleep
delays it performed, in order — the observables the spec's retry and
backoff claims are about.  Unbounded `while True:` pagination loops take
an explicit fuel argument bounding the number of iterations; every
terminating run of the source corresponds to a sufficiently large fuel.
-/

/-- Result of a remote call: a returned value or a raised exception. -/
inductive Res (ε : Type) (α : Type) where
  | ok (a : α)
  | err (e : ε)
deriving DecidableEq, Repr

/-- An HTTP error surfaced by the API client (`googleapiclient.errors.HttpError`);
only its status code (`error.resp.status`) is inspected by the scripts. -/
structure HttpError where
  status : Nat
deriving DecidableEq, Repr

/-- Observable outcome of one embedded Python function: its return value,
the number of invocations of the wrapped remote operation, and the sleep
delays performed (in seconds, in chronological order). -/
structure CallTrace (α : Type) where
  result : α
  calls : Nat
  sleeps : List Nat
deriving DecidableEq, Repr

/-- One group member as returned by the Directory API; the scripts read the
fields with `.get(key, 'N/A')`, so each field is optional. -/
structure Member where
  email : Option String
  role : Option String
  status : Option String
deriving DecidableEq, Repr

/-- Response of one `members().list` call: the `members` key (absent key is
read with `.get('members', [])`) and the `nextPageToken` key, which
`get_group_members` in `gw_groups_backup.py` never reads. -/
structure MembersPage where
  members : Option (List Member)
  nextPageToken : Option String
deriving DecidableEq, Repr

/-- Loop body of `get_group_members` (`gw_groups_backup.py` lines 106-121):
`for attempt in range(retries)` retries on status 503 with a fixed
`delay`-second sleep between attempts, returns `[]` when the last attempt
fails with 503, and re-raises any non-503 `HttpError`.  `fuel` is the
number of loop iterations left (`retries - attempt`); falling off the end
of the loop returns Python `None`, modelled as `Res.ok none`. -/
def getGroupMembersGo (op : Nat → Res HttpError MembersPage) (retries delay : Nat) :
    Nat → Nat → CallTrace (Res HttpError (Option (List Member)))
  | 0, _ => ⟨Res.ok none, 0, []⟩
  | fuel + 1, attempt =>
    match op attempt with
    | Res.ok page => ⟨Res.ok (some (page.members.getD [])), 1, []⟩
    | Res.err e =>
      if e.status = 503 then
        if attempt < retries - 1 then
          let rest := getGroupMembersGo op retries delay fuel (attempt + 1)
          ⟨rest.result, rest.calls + 1, delay :: rest.sleeps⟩
        else
          ⟨Res.ok (some []), 1, []⟩
      else
        ⟨Res.err e, 1, []⟩

/-- `get_group_members(service, group_email, retries, delay)` of
`gw_groups_backup.py`, over the oracle `op` for the per-attempt outcome of
`service.members().list(groupKey=group_email).execute()`. -/
def get_group_members (op : Nat → Res HttpError MembersPage) (retries delay : Nat) :
    CallTrace (Res HttpError (Option (List Member))) :=
  getGroupMembersGo op retries delay retries 0

/-- `get_group_members` with its default arguments `retries=3, delay=5`, as
called from `export_groups_to_csv` (line 167). -/
def get_group_members_default (op : Nat → Res HttpError MembersPage) :
    CallTrace (Res HttpError (Option (List Member))) :=
  get_group_members op 3 5

/-- Error class caught by `get_group_settings` in `gw_gg_settings_backup.py`:
`except (HttpError, TimeoutError)`; both kinds are handled identically. -/
inductive SettingsErr where
  | http (e : HttpError)
  | timeout
deriving DecidableEq, Repr

/-- Loop body of `get_group_settings` (`gw_gg_settings_backup.py` lines
94-107): `for attempt in range(max_retries)` retries EVERY `HttpError` or
`TimeoutError` (no status classification), sleeping `5 * (attempt + 1)`
seconds between attempts, and returns `None` once the last attempt fails.
The settings payload is returned unchanged, hence the type parameter. -/
def getGroupSettingsGo {α : Type} (op : Nat → Res SettingsErr α) (maxRetries : Nat) :
    Nat → Nat → CallTrace (Option α)
  | 0, _ => ⟨none, 0, []⟩
  | fuel + 1, attempt =>
    match op attempt with
    | Res.ok s => ⟨some s, 1, []⟩
    | Res.err _ =>
      if attempt < maxRetries - 1 then
        let rest := getGroupSettingsGo op maxRetries fuel (attempt + 1)
        ⟨rest.result, rest.calls + 1, 5 * (attempt + 1) :: rest.sleeps⟩
      else
        ⟨none, 1, []⟩

/-- `get_group_settings(group_email)` of `gw_gg_settings_backup.py` with the
retry count `maxRetries` left as a parameter (the source hardcodes
`max_retries = 3`). -/
def getGroupSettingsRetry {α : Type} (op : Nat → Res SettingsErr α) (maxRetries : Nat) :
    CallTrace (Option α) :=
  getGroupSettingsGo op maxRetries maxRetries 0

/-- `get_group_settings(group_email)` as written in the source, with
`max_retries = 3`. -/
def get_group_settings {α : Type} (op : Nat → Res SettingsErr α) : CallTrace (Option α) :=
  getGroupSettingsRetry op 3

/-- Response of `users().settings().getAutoForwarding`: the script indexes
`settings['enabled']` directly (a mandatory boolean field) and reads the
other two fields with `.get(key, 'N/A')`. -/
structure AutoForwarding where
  enabled : Bool
  emailAddress : Option String
  disposition : Option String
deriving DecidableEq, Repr

/-- Loop body of `get_forwarding_settings` (`gw_export_users_with_forwarding.py`
lines 112-135): on a 429 `HttpError` it sleeps `delay` seconds (even on the
last attempt — there is no `attempt < retries - 1` guard) and doubles
`delay`; on any other `HttpError` it returns `(None, None)` at once; when
the loop ends it returns `(None, None)`.  A successful call returns the
`(emailAddress, disposition)` pair when `enabled` is set and `(None, None)`
otherwise; `(None, None)` is modelled as `none`. -/
def getForwardingSettingsGo (op : Nat → Res HttpError AutoForwarding) :
    Nat → Nat → Nat → CallTrace (Option (String × String))
  | 0, _, _ => ⟨none, 0, []⟩
  | fuel + 1, attempt, delay =>
    match op attempt with
    | Res.ok s =>
      if s.enabled then
        ⟨some (s.emailAddress.getD "N/A", s.disposition.getD "N/A"), 1, []⟩
      else
        ⟨none, 1, []⟩
    | Res.err e =>
      if e.status = 429 then
        let rest := getForwardingSettingsGo op fuel (attempt + 1) (delay * 2)
        ⟨rest.result, rest.calls + 1, delay :: rest.sleeps⟩
      else
        ⟨none, 1, []⟩

/-- `get_forwarding_settings(user_email, retries, delay)` of
`gw_export_users_with_forwarding.py`. -/
def get_forwarding_settings (op : Nat → Res HttpError AutoForwarding) (retries delay : Nat) :
    CallTrace (Option (String × String)) :=
  getForwardingSettingsGo op retries 0 delay

/-- `get_forwarding_settings` with its default arguments `retries=5, delay=30`,
as called from `export_users_with_forwarding_to_csv` (line 163). -/
def get_forwarding_settings_default (op : Nat → Res HttpError AutoForwarding) :
    CallTrace (Option (String × String)) :=
  get_forwarding_settings op 5 30

/-- Error class caught by `upload_file_to_drive` in the two backup scripts:
`ssl.SSLEOFError` and `HttpError`, handled by two identically-shaped
`except` arms. -/
inductive UploadErr where
  | ssl
  | http (e : HttpError)
deriving DecidableEq, Repr

/-- Loop body of `upload_file_to_drive` (`gw_groups_backup.py` lines 124-151,
identical in `gw_gg_settings_backup.py` lines 122-149): `for attempt in
range(retries)` retries both error classes with a fixed `delay`-second
sleep, and re-raises the error once the last attempt fails.  Falling off
the end of the loop (only possible when `retries = 0`) returns Python
`None`, modelled as `Res.ok none`; a successful attempt returns the new
file id. -/
def uploadFileToDriveGo (op : Nat → Res UploadErr String) (retries delay : Nat) :
    Nat → Nat → CallTrace (Res UploadErr (Option String))
  | 0, _ => ⟨Res.ok none, 0, []⟩
  | fuel + 1, attempt =>
    match op attempt with
    | Res.ok fileId => ⟨Res.ok (some fileId), 1, []⟩
    | Res.err e =>
      if attempt < retries - 1 then
        let rest := uploadFileToDriveGo op retries delay fuel (attempt + 1)
        ⟨rest.result, rest.calls + 1, delay :: rest.sleeps⟩
      else
        ⟨Res.err e, 1, []⟩

/-- `upload_file_to_drive(drive_service, csv_file, filename, folder_id,
retries, delay)` of the two backup scripts. -/
def upload_file_to_drive (op : Nat → Res UploadErr String) (retries delay : Nat) :
    CallTrace (Res UploadErr (Option String)) :=
  uploadFileToDriveGo op retries delay retries 0

/-- `upload_file_to_drive` with its default arguments `retries=3, delay=5`,
as called from the export functions of both backup scripts. -/
def upload_file_to_drive_default (op : Nat → Res UploadErr String) :
    CallTrace (Res UploadErr (Option String)) :=
  upload_file_to_drive op 3 5

/-- `upload_to_drive(filename, folder_id)` of
`gw_export_users_with_forwarding.py` (lines 138-151) and
`gw_export_shared_drives_acls.py` (lines 154-167): a single
`files().create` attempt whose `HttpError` is caught, logged and absorbed
— the function returns normally either way.  The result records whether
the upload succeeded. -/
def upload_to_drive (op : Res HttpError String) : CallTrace Bool :=
  match op with
  | Res.ok _ => ⟨true, 1, []⟩
  | Res.err _ => ⟨false, 1, []⟩

/-- Response of the `files().list` probe used by `check_folder_exists`:
the `files` key, read with `.get('files', [])`. -/
structure FilesResp where
  files : Option (List String)
deriving DecidableEq, Repr

/-- `check_folder_exists(drive_service, folder_id)` of `gw_groups_backup.py`
lines 93-103 (identical in `gw_gg_settings_backup.py` lines 110-119):
attempts one `files().list` call on the folder; on success it reads the
file list (used only for the log line reporting `len(files)`) and returns
`True` unconditionally; an `HttpError` yields `False`. -/
def check_folder_exists (listCall : Res HttpError FilesResp) : Bool :=
  match listCall with
  | Res.ok results =>
    let files := results.files.getD []
    let _logLine := files.length
    true
  | Res.err _ => false

/-- One Google group as used by the scripts; only its `email` field is read
(`group['email']` in `gw_groups_backup.py`, `group.get('email')` in
`gw_gg_settings_backup.py` — the Directory API always returns it). -/
structure GwGroup where
  email : String
deriving DecidableEq, Repr

/-- Response of one `groups().list` page: the `groups` key (read with
`.get('groups', [])`) and the continuation token implied by `list_next`
returning a request or `None`. -/
structure GroupsPage (κ : Type) where
  groups : Option (List GwGroup)
  next : Option κ
deriving DecidableEq, Repr

/-- Pagination loop of `get_google_groups` (`gw_groups_backup.py` lines
83-90, same shape in `gw_gg_settings_backup.py` lines 84-91): no
`try`/`except` — an `HttpError` raised by any page fetch propagates to the
caller.  `fetch` maps the current cursor (`none` = first request) to the
page outcome; `fuel` bounds the unbounded source loop. -/
def getGoogleGroupsGo {κ : Type} (fetch : Option κ → Res HttpError (GroupsPage κ)) :
    Nat → Option κ → List GwGroup → Res HttpError (List GwGroup)
  | 0, _, acc => Res.ok acc
  | fuel + 1, tok, acc =>
    match fetch tok with
    | Res.err e => Res.err e
    | Res.ok page =>
      let acc2 := acc ++ page.groups.getD []
      match page.next with
      | none => Res.ok acc2
      | some t => getGoogleGroupsGo fetch fuel (some t) acc2

/-- `get_google_groups()` of `gw_groups_backup.py`. -/
def get_google_groups {κ : Type} (fetch : Option κ → Res HttpError (GroupsPage κ))
    (fuel : Nat) : Res HttpError (List GwGroup) :=
  getGoogleGroupsGo fetch fuel none []

/-- One Workspace user; the forwarding script reads `primaryEmail`,
`name.fullName` and `suspended` (with `.get('suspended', False)`). -/
structure WsUser where
  primaryEmail : String
  fullName : String
  suspended : Bool
deriving DecidableEq, Repr

/-- Response of one `users().list` page. -/
structure UsersPage (κ : Type) where
  users : Option (List WsUser)
  nextPageToken : Option κ
deriving DecidableEq, Repr

/-- Pagination loop of `get_active_users` (`gw_export_users_with_forwarding.py`
lines 95-109): the whole loop sits inside `try: ... except Exception:
print(...)`, so the first failing page fetch ends the loop and the users
accumulated so far are KEPT (the error is absorbed, not propagated). -/
def getActiveUsersGo {κ : Type} (fetch : Option κ → Res HttpError (UsersPage κ)) :
    Nat → Option κ → List WsUser → List WsUser
  | 0, _, acc => acc
  | fuel + 1, tok, acc =>
    match fetch tok with
    | Res.err _ => acc
    | Res.ok page =>
      let acc2 := acc ++ page.users.getD []
      match page.nextPageToken with
      | none => acc2
      | some t => getActiveUsersGo fetch fuel (some t) acc2

/-- `get_active_users(customer_id)`: paginate (absorbing errors), then filter
out suspended users. -/
def get_active_users {κ : Type} (fetch : Option κ → Res HttpError (UsersPage κ))
    (fuel : Nat) : List WsUser :=
  (getActiveUsersGo fetch fuel none []).filter (fun u => !u.suspended)

/-- One shared drive (`drives(id,name)`). -/
structure SharedDrive where
  driveId : String
  driveName : String
deriving DecidableEq, Repr

/-- Response of one `drives().list` page. -/
structure DrivesPage (κ : Type) where
  drives : Option (List SharedDrive)
  nextPageToken : Option κ
deriving DecidableEq, Repr

/-- One permission entry of a shared drive ACL; all four fields are read
with `.get(key, 'N/A')`. -/
structure Acl where
  emailAddress : Option String
  role : Option String
  ptype : Option String
  displayName : Option String
deriving DecidableEq, Repr

/-- Response of one `permissions().list` page. -/
structure AclsPage (κ : Type) where
  permissions : Option (List Acl)
  nextPageToken : Option κ
deriving DecidableEq, Repr

/-- Drive-listing loop of `export_shared_drive_acls`
(`gw_export_shared_drives_acls.py` lines 91-101): inside the outer
`try`, so an `HttpError` propagates to the outer handler (aborting the
whole export). -/
def listSharedDrivesGo {κ : Type} (fetch : Option κ → Res HttpError (DrivesPage κ)) :
    Nat → Option κ → List SharedDrive → Res HttpError (List SharedDrive)
  | 0, _, acc => Res.ok acc
  | fuel + 1, tok, acc =>
    match fetch tok with
    | Res.err e => Res.err e
    | Res.ok page =>
      let acc2 := acc ++ page.drives.getD []
      match page.nextPageToken with
      | none => Res.ok acc2
      | some t => listSharedDrivesGo fetch fuel (some t) acc2

/-- Inner ACL pagination loop of `export_shared_drive_acls` (lines 118-142):
`while True:` re-issues `permissions().list` with the returned
`nextPageToken` until it is empty, writing each page's rows as it goes;
the surrounding per-drive `except HttpError` keeps the rows already
written and skips the rest of that drive.  Returns the rows written for
the drive and whether the loop ended in an error. -/
def aclPagesGo {κ : Type} (fetch : Option κ → Res HttpError (AclsPage κ)) :
    Nat → Option κ → List Acl → List Acl × Bool
  | 0, _, acc => (acc, false)
  | fuel + 1, tok, acc =>
    match fetch tok with
    | Res.err _ => (acc, true)
    | Res.ok resp =>
      let acc2 := acc ++ resp.permissions.getD []
      match resp.nextPageToken with
      | none => (acc2, false)
      | some t => aclPagesGo fetch fuel (some t) acc2

/-- Header row written by `export_shared_drive_acls` (line 111). -/
def aclHeader : List String :=
  ["Shared Drive Name", "Shared Drive ID", "Permission Email", "Permission Role",
   "Permission Type", "Permission Display Name"]

/-- One CSV row per ACL entry (lines 131-138). -/
def aclRow (d : SharedDrive) (a : Acl) : List String :=
  [d.driveName, d.driveId, a.emailAddress.getD "N/A", a.role.getD "N/A",
   a.ptype.getD "N/A", a.displayName.getD "N/A"]

/-- Per-run call counts observable from outside: invocations of the
destination existence probe, of the top-level listing (1 = the listing
loop ran), per-resource detail fetches, and upload attempts. -/
structure RunTrace where
  probeCalls : Nat
  listingCalls : Nat
  detailCalls : Nat
  uploadCalls : Nat
deriving DecidableEq, Repr

/-- Outcome of one whole run: its call trace, the CSV contents written to
the local file (`none` = no file was created), and whether an upload
succeeded. -/
structure RunResult where
  trace : RunTrace
  csv : Option (List (List String))
  uploaded : Bool
deriving DecidableEq, Repr

/-- `export_shared_drive_acls()` of `gw_export_shared_drives_acls.py` (run from
`__main__`, which performs no destination probe): list the drives (an
`HttpError` reaches the outer handler: no file); `if not shared_drives:
return` BEFORE the CSV file is opened; otherwise write the header, the
rows of each drive's (inner-paginated) ACLs, and hand the file to
`upload_to_drive`, which absorbs its own failures. -/
def export_shared_drive_acls {κ κ' : Type}
    (driveFetch : Option κ → Res HttpError (DrivesPage κ))
    (aclFetch : SharedDrive → Option κ' → Res HttpError (AclsPage κ'))
    (uploadOp : Res HttpError String) (fuel : Nat) : RunResult :=
  match listSharedDrivesGo driveFetch fuel none [] with
  | Res.err _ => ⟨⟨0, 1, 0, 0⟩, none, false⟩
  | Res.ok drives =>
    if drives.isEmpty then
      ⟨⟨0, 1, 0, 0⟩, none, false⟩
    else
      let rows := (drives.map (fun d => ((aclPagesGo (aclFetch d) fuel none []).1).map (aclRow d))).flatten
      let up := upload_to_drive uploadOp
      ⟨⟨0, 1, drives.length, up.calls⟩, some (aclHeader :: rows), up.result⟩

/-- Header row written by `export_groups_to_csv` (`gw_groups_backup.py`
line 162). -/
def groupsHeader : List String := ["Group Email", "Member Email", "Role", "Status"]

/-- One CSV row per member (lines 170-175). -/
def memberRow (groupEmail : String) (m : Member) : List String :=
  [groupEmail, m.email.getD "N/A", m.role.getD "N/A", m.status.getD "N/A"]

/-- CSV contents produced by `export_groups_to_csv` (lines 160-178).
`membersOf` is the observed outcome of the `get_group_members` call for
each group (line 167): with the default `retries=3` that call either
returns a member list (possibly `[]` after 503 retries were exhausted) or
raises a non-503 `HttpError`, which line 176's `except HttpError:
continue` turns into a skip of that group only. -/
def exportGroupsCsvRows (membersOf : String → Res HttpError (List Member))
    (groups : List GwGroup) : List (List String) :=
  groupsHeader ::
    (groups.map (fun g =>
      match membersOf g.email with
      | Res.ok ms => ms.map (memberRow g.email)
      | Res.err _ => [])).flatten

/-- `main()` of `gw_groups_backup.py` (lines 186-192): probe the destination
folder with `check_folder_exists`; only if it returns `True` run
`get_google_groups` (whose `HttpError` would propagate and abort the run
before any CSV exists) and then `export_groups_to_csv`, which always
writes the CSV (header first) and always calls `upload_file_to_drive`
(default `retries=3, delay=5`), whose exhausted retries raise and leave
the run failed after the local file was written. -/
def groups_backup_main {κ : Type} (probeCall : Res HttpError FilesResp)
    (listFetch : Option κ → Res HttpError (GroupsPage κ))
    (membersOf : String → Res HttpError (List Member))
    (uploadOp : Nat → Res UploadErr String) (fuel : Nat) : RunResult :=
  if check_folder_exists probeCall then
    match get_google_groups listFetch fuel with
    | Res.err _ => ⟨⟨1, 1, 0, 0⟩, none, false⟩
    | Res.ok groups =>
      let csv := exportGroupsCsvRows membersOf groups
      let up := upload_file_to_drive_default uploadOp
      let ok := match up.result with
        | Res.ok (some _) => true
        | _ => false
      ⟨⟨1, 1, groups.length, 1⟩, some csv, ok⟩
  else
    ⟨⟨1, 0, 0, 0⟩, none, false⟩

/-- The `fields` list of `export_groups_settings_to_csv`
(`gw_gg_settings_backup.py` lines 159-177), written as the header row and
used to project each group's settings. -/
def settingsFields : List String :=
  ["email", "id", "name", "description", "directMembersCount", "adminCreated",
   "aliases", "nonEditableAliases", "allowExternalMembers", "allowWebPosting",
   "archiveOnly", "customFooterText", "customRolesEnabledForSettingsToBeMerged",
   "defaultMessageDenyNotificationText", "defaultSender", "enableCollaborativeInbox",
   "includeCustomFooter", "includeInGlobalAddressList", "isArchived",
   "membersCanPostAsTheGroup", "messageModerationLevel", "primaryLanguage", "replyTo",
   "sendMessageDenyNotification", "spamModerationLevel", "whoCanContactOwner", "whoCanJoin",
   "whoCanLeaveGroup", "whoCanPostMessage", "whoCanViewGroup", "whoCanViewMembership",
   "whoCanDiscoverGroup", "showInGroupDirectory", "whoCanAssistContent", "whoCanAssignTopics",
   "whoCanEnterFreeFormTags", "whoCanHideAbuse", "whoCanMakeTopicsSticky", "whoCanMarkDuplicate",
   "whoCanMarkFavoriteReplyOnAnyTopic", "whoCanMarkNoResponseNeeded", "whoCanModifyTagsAndCategories",
   "whoCanTakeTopics", "whoCanUnassignTopic", "whoCanUnmarkFavoriteReplyOnAnyTopic", "whoCanModerateContent",
   "whoCanApproveMessages", "whoCanDeleteAnyPost", "whoCanDeleteTopics", "whoCanLockTopics",
   "whoCanMoveTopicsIn", "whoCanMoveTopicsOut", "whoCanPostAnnouncements", "whoCanModerateMembers",
   "whoCanAdd", "whoCanApproveMembers", "whoCanBanUsers", "whoCanInvite", "whoCanModifyMembers",
   "allowGoogleCommunication", "favoriteRepliesOnTop", "maxMessageBytes", "messageDisplayFont",
   "whoCanAddReferences", "whoCanMarkFavoriteReplyOnOwnTopic"]

/-- CSV contents produced by `export_groups_settings_to_csv`
(`gw_gg_settings_backup.py` lines 179-188).  `settingsOf` is the observed
outcome of `get_group_settings` for each group (line 185): a settings
dictionary (modelled as a key-value list) or `None` once retries were
exhausted.  Line 186's `if settings:` skips `None` (and an empty
dictionary, which is also falsy); otherwise one row is written with the
value of each field, `'N/A'` when absent. -/
def exportGroupsSettingsRows (settingsOf : String → Option (List (String × String)))
    (groups : List GwGroup) : List (List String) :=
  settingsFields ::
    groups.filterMap (fun g =>
      match settingsOf g.email with
      | some s =>
        if s.isEmpty then none
        else some (settingsFields.map (fun f => ((s.lookup f).getD "N/A")))
      | none => none)

/-- Header row written by `export_users_with_forwarding_to_csv`
(`gw_export_users_with_forwarding.py` line 156). -/
def forwardingHeader : List String :=
  ["Primary Email", "Full Name", "Forwarding Email Address", "Disposition"]

/-- CSV contents produced by `export_users_with_forwarding_to_csv` (lines
154-171).  `fwdOf` is the observed result of `get_forwarding_settings`
for each user; `if forwarding_email:` writes a row only when a forwarding
address was returned. -/
def exportUsersWithForwardingRows (fwdOf : String → Option (String × String))
    (users : List WsUser) : List (List String) :=
  forwardingHeader ::
    users.filterMap (fun u =>
      match fwdOf u.primaryEmail with
      | some (e, d) => some [u.primaryEmail, u.fullName, e, d]
      | none => none)

/-- The `__main__` block of `gw_export_users_with_forwarding.py` (lines
175-184): run `get_active_users` (no destination probe anywhere in this
script); if the list is non-empty, `export_users_with_forwarding_to_csv`
writes the CSV and calls `upload_to_drive`, which absorbs upload failures;
with an empty list it only prints a message. -/
def forwarding_main {κ : Type} (userFetch : Option κ → Res HttpError (UsersPage κ))
    (fwdOf : String → Option (String × String)) (uploadOp : Res HttpError String)
    (fuel : Nat) : RunResult :=
  let activeUsers := get_active_users userFetch fuel
  if activeUsers.isEmpty then
    ⟨⟨0, 1, 0, 0⟩, none, false⟩
  else
    let csv := exportUsersWithForwardingRows fwdOf activeUsers
    let up := upload_to_drive uploadOp
    ⟨⟨0, 1, activeUsers.length, up.calls⟩, some csv, up.result⟩

/-- Exponential backoff schedule: `n` delays starting at `d`, doubling each
time (the schedule `get_forwarding_settings` produces when every attempt
is rate-limited). -/
def expSleeps (d : Nat) : Nat → List Nat
  | 0 => []
  | n + 1 => d :: expSleeps (d * 2) n

/-- Modelled from the spec (§4.3): the detail fetch "re-issues the detail
request with the returned page cursor until the cursor is empty", so every
member across all pages appears, in pagination order.  This spec-side
collector is compared with `get_group_members`, which never reads
`nextPageToken`. -/
def specMembersAllPages (api : Option String → MembersPage) : Nat → Option String → List Member
  | 0, _ => []
  | fuel + 1, tok =>
    let page := api tok
    match page.nextPageToken with
    | none => page.members.getD []
    | some t => page.members.getD [] ++ specMembersAllPages api fuel (some t)

/-- A linearly-chained paginated ACL server: cursor `i` addresses page `i`
of `pages`, the first request (cursor `none`) addresses page 0, and each
response carries the cursor of the next page if one exists. -/
def chainAclPages (pages : List (List Acl)) : Option Nat → Res HttpError (AclsPage Nat) :=
  fun tok =>
    let i := tok.getD 0
    Res.ok ⟨some (pages.getD i []), if i + 1 < pages.length then some (i + 1) else none⟩

/-- A successful auto-forwarding payload. -/
def fwdOk : AutoForwarding := ⟨true, some "fwd@example.com", some "leaveInInbox"⟩

/-- Operation that is rate-limited on attempt 0 and succeeds on attempt 1. -/
def fwdOpW : Nat → Res HttpError AutoForwarding
  | 0 => Res.err ⟨429⟩
  | _ + 1 => Res.ok fwdOk

/-- Operation that is rate-limited on every attempt. -/
def always429 : Nat → Res HttpError AutoForwarding := fun _ => Res.err ⟨429⟩

/-- Settings fetch that fails with a permission error (HTTP 403, a
fatal-class error in the spec's taxonomy) on every attempt. -/
def always403settings : Nat → Res SettingsErr Unit := fun _ => Res.err (SettingsErr.http ⟨403⟩)

/-- Settings fetch that times out on attempt 0 and succeeds on attempt 1. -/
def settingsOpW : Nat → Res SettingsErr String
  | 0 => Res.err SettingsErr.timeout
  | _ + 1 => Res.ok "groupSettingsPayload"

/-- Members fetch that fails with HTTP 503 on every attempt. -/
def always503 : Nat → Res HttpError MembersPage := fun _ => Res.err ⟨503⟩

/-- Upload operation that fails with an HTTP 503 on every attempt. -/
def alwaysFailUpload : Nat → Res UploadErr String := fun _ => Res.err (UploadErr.http ⟨503⟩)

/-- Two concrete group members. -/
def memberAlice : Member := ⟨some "alice@example.com", some "MEMBER", some "ACTIVE"⟩

/-- Second concrete group member, living on the second page of the paged
members listing. -/
def memberBob : Member := ⟨some "bob@example.com", some "MEMBER", some "ACTIVE"⟩

/-- A members endpoint whose listing has two pages: Alice on page one with a
continuation cursor, Bob on page two. -/
def membersPagedApi : Option String → MembersPage
  | none => ⟨some [memberAlice], some "page2"⟩
  | some _ => ⟨some [memberBob], none⟩

/-- Ten groups `g1` … `g10`. -/
def tenGroups : List GwGroup :=
  [⟨"g1"⟩, ⟨"g2"⟩, ⟨"g3"⟩, ⟨"g4"⟩, ⟨"g5"⟩, ⟨"g6"⟩, ⟨"g7"⟩, ⟨"g8"⟩, ⟨"g9"⟩, ⟨"g10"⟩]

/-- The single member every healthy group resolves to in the ten-group
scenario. -/
def memberM : Member := ⟨some "m@example.com", some "MEMBER", some "ACTIVE"⟩

/-- Detail fetch where only group `g4` fails (with a non-retryable 403, so
its `get_group_members` call raises into the caller's `except HttpError`);
every other group has exactly one member. -/
def tenFetch : String → Res HttpError (List Member) :=
  fun e => if e = "g4" then Res.err ⟨403⟩ else Res.ok [memberM]

/-- One active user. -/
def userU1 : WsUser := ⟨"u1@example.com", "User One", false⟩

/-- User listing whose first page returns `userU1` with a continuation
token and whose second page fetch fails. -/
def cexUserFetch : Option String → Res HttpError (UsersPage String)
  | none => Res.ok ⟨some [userU1], some "p2"⟩
  | some _ => Res.err ⟨503⟩

/-- Drive listing that succeeds with zero shared drives. -/
def emptyDriveFetch : Option String → Res HttpError (DrivesPage String) :=
  fun _ => Res.ok ⟨some [], none⟩

/-- One concrete shared drive. -/
def driveOne : SharedDrive := ⟨"d1", "Drive One"⟩

/-- Drive listing that succeeds with exactly one shared drive. -/
def oneDriveFetch : Option String → Res HttpError (DrivesPage String) :=
  fun _ => Res.ok ⟨some [driveOne], none⟩

/-- ACL detail fetch returning a single empty page for every drive. -/
def emptyAclFetch : SharedDrive → Option String → Res HttpError (AclsPage String) :=
  fun _ _ => Res.ok ⟨some [], none⟩

/-- ACL detail fetch failing for every drive and cursor. -/
def failAclFetch : SharedDrive → Option String → Res HttpError (AclsPage String) :=
  fun _ _ => Res.err ⟨500⟩

/-- Two concrete ACL entries for the inner-pagination witness. -/
def aclA : Acl := ⟨some "a@example.com", some "organizer", some "user", some "A"⟩

/-- Second concrete ACL entry. -/
def aclB : Acl := ⟨some "b@example.com", some "reader", some "user", some "B"⟩

theorem fwdGo_ok (op : Nat → Res HttpError AutoForwarding) (s : AutoForwarding)
    (hs : s.enabled = true) :
    ∀ (k fuel a d : Nat), k < fuel →
      (∀ i, i < k → ∃ e, op (a + i) = Res.err e ∧ e.status = 429) →
      op (a + k) = Res.ok s →
      (getForwardingSettingsGo op fuel a d).result
          = some (s.emailAddress.getD "N/A", s.disposition.getD "N/A") ∧
      (getForwardingSettingsGo op fuel a d).calls = k + 1 := by
  intro k
  induction k with
  | zero =>
    intro fuel a d hk hfail hok
    obtain ⟨f, rfl⟩ : ∃ f, fuel = f + 1 := ⟨fuel - 1, by omega⟩
    rw [Nat.add_zero] at hok
    simp [getForwardingSettingsGo, hok, hs]
  | succ k ih =>
    intro fuel a d hk hfail hok
    obtain ⟨f, rfl⟩ : ∃ f, fuel = f + 1 := ⟨fuel - 1, by omega⟩
    obtain ⟨e, he, he429⟩ := hfail 0 (Nat.succ_pos k)
    rw [Nat.add_zero] at he
    have step := ih f (a + 1) (d * 2) (by omega)
      (fun i hi => by
        obtain ⟨e', he', h4'⟩ := hfail (i + 1) (by omega)
        exact ⟨e', by rwa [show a + (i + 1) = a + 1 + i by omega] at he', h4'⟩)
      (by rwa [show a + (k + 1) = a + 1 + k by omega] at hok)
    simp [getForwardingSettingsGo, he, he429, step.1, step.2]

theorem fwdGo_exhaust (op : Nat → Res HttpError AutoForwarding)
    (h : ∀ i, ∃ e, op i = Res.err e ∧ e.status = 429) :
    ∀ (fuel a d : Nat), getForwardingSettingsGo op fuel a d = ⟨none, fuel, expSleeps d fuel⟩ := by
  intro fuel
  induction fuel with
  | zero => intro a d; rfl
  | succ f ih =>
    intro a d
    obtain ⟨e, he, h4⟩ := h a
    simp [getForwardingSettingsGo, he, h4, ih, expSleeps]

theorem settingsGo_ok {α : Type} (op : Nat → Res SettingsErr α) (v : α) (m : Nat) :
    ∀ (k fuel a : Nat), k < fuel → a + fuel = m →
      (∀ i, i < k → ∃ e, op (a + i) = Res.err e) →
      op (a + k) = Res.ok v →
      (getGroupSettingsGo op m fuel a).result = some v ∧
      (getGroupSettingsGo op m fuel a).calls = k + 1 := by
  intro k
  induction k with
  | zero =>
    intro fuel a hk hm hfail hok
    obtain ⟨f, rfl⟩ : ∃ f, fuel = f + 1 := ⟨fuel - 1, by omega⟩
    rw [Nat.add_zero] at hok
    simp [getGroupSettingsGo, hok]
  | succ k ih =>
    intro fuel a hk hm hfail hok
    obtain ⟨f, rfl⟩ : ∃ f, fuel = f + 1 := ⟨fuel - 1, by omega⟩
    obtain ⟨e, he⟩ := hfail 0 (Nat.succ_pos k)
    rw [Nat.add_zero] at he
    have hguard : a < m - 1 := by omega
    have step := ih f (a + 1) (by omega) (by omega)
      (fun i hi => by
        obtain ⟨e', he'⟩ := hfail (i + 1) (by omega)
        exact ⟨e', by rwa [show a + (i + 1) = a + 1 + i by omega] at he'⟩)
      (by rwa [show a + (k + 1) = a + 1 + k by omega] at hok)
    simp [getGroupSettingsGo, he, hguard, step.1, step.2]

theorem settingsGo_exhaust {α : Type} (op : Nat → Res SettingsErr α) (m : Nat)
    (h : ∀ i, ∃ e, op i = Res.err e) :
    ∀ (fuel a : Nat), a + fuel = m →
      (getGroupSettingsGo op m fuel a).result = none ∧
      (getGroupSettingsGo op m fuel a).calls = fuel := by
  intro fuel
  induction fuel with
  | zero => intro a hm; exact ⟨rfl, rfl⟩
  | succ f ih =>
    intro a hm
    obtain ⟨e, he⟩ := h a
    by_cases hg : a < m - 1
    · have step := ih (a + 1) (by omega)
      simp [getGroupSettingsGo, he, hg, step.1, step.2]
    · have hf : f = 0 := by omega
      subst hf
      simp [getGroupSettingsGo, he, hg]

theorem membersGo_exhaust (op : Nat → Res HttpError MembersPage) (retries delay : Nat)
    (h : ∀ i, ∃ e, op i = Res.err e ∧ e.status = 503) :
    ∀ (fuel a : Nat), 0 < fuel → a + fuel = retries →
      getGroupMembersGo op retries delay fuel a =
        ⟨Res.ok (some []), fuel, List.replicate (fuel - 1) delay⟩ := by
  intro fuel
  induction fuel with
  | zero => intro a h0 _; omega
  | succ f ih =>
    intro a _ hm
    obtain ⟨e, he, h5⟩ := h a
    by_cases hg : a < retries - 1
    · have hf : 0 < f := by omega
      have step := ih (a + 1) hf (by omega)
      have h1 : getGroupMembersGo op retries delay (f + 1) a =
          ⟨(getGroupMembersGo op retries delay f (a + 1)).result,
           (getGroupMembersGo op retries delay f (a + 1)).calls + 1,
           delay :: (getGroupMembersGo op retries delay f (a + 1)).sleeps⟩ := by
        simp [getGroupMembersGo, he, h5, hg]
      obtain ⟨f', rfl⟩ : ∃ f', f = f' + 1 := ⟨f - 1, by omega⟩
      rw [h1, step]
      simp [List.replicate_succ]
    · have hf : f = 0 := by omega
      subst hf
      simp [getGroupMembersGo, he, h5, hg]

theorem expSleeps_eq_map : ∀ (n d : Nat), expSleeps d n = (List.range n).map (fun k => d * 2 ^ k) := by
  intro n
  induction n with
  | zero => intro d; rfl
  | succ n ih =>
    intro d
    rw [expSleeps, List.range_succ_eq_map, List.map_cons, List.map_map, ih]
    congr 1
    · simp
    · apply List.map_congr_left
      intro k _
      simp only [Function.comp_apply, pow_succ]
      ring

theorem flatten_map_filter {β γ : Type} (p : β → Bool) (f : β → List γ)
    (h : ∀ b, p b = false → f b = []) :
    ∀ l : List β, (l.map f).flatten = ((l.filter p).map f).flatten := by
  intro l
  induction l with
  | nil => rfl
  | cons b t ih =>
    by_cases hb : p b
    · simp [List.filter_cons, hb, ih]
    · have hb' : p b = false := by simpa using hb
      simp [List.filter_cons, hb', h b hb', ih]

theorem filterMap_filter_congr {β γ : Type} (f : β → Option γ) (p : β → Bool)
    (hp : ∀ b, (f b).isSome = p b) :
    ∀ l : List β, l.filterMap f = (l.filter p).filterMap f := by
  intro l
  induction l with
  | nil => rfl
  | cons b t ih =>
    cases hb : f b with
    | none =>
      have hpb : p b = false := by rw [← hp]; simp [hb]
      simp [List.filterMap_cons, List.filter_cons, hb, hpb, ih]
    | some c =>
      have hpb : p b = true := by rw [← hp]; simp [hb]
      simp [List.filterMap_cons, List.filter_cons, hb, hpb, ih]

theorem aclChain_go (pages : List (List Acl)) :
    ∀ (fuel i : Nat) (acc : List Acl), pages.length - i ≤ fuel → i < pages.length →
      aclPagesGo (chainAclPages pages) fuel (some i) acc = (acc ++ (pages.drop i).flatten, false) := by
  intro fuel
  induction fuel with
  | zero => intro i acc h1 h2; omega
  | succ f ih =>
    intro i acc h1 h2
    have hget : pages.getD i [] = pages[i] := by
      simp [List.getD_eq_getElem?_getD, List.getElem?_eq_getElem h2]
    have hdrop : pages.drop i = pages[i] :: pages.drop (i + 1) := List.drop_eq_getElem_cons h2
    simp only [aclPagesGo, chainAclPages, Option.getD_some]
    by_cases hnext : i + 1 < pages.length
    · rw [if_pos hnext]
      have step := ih (i + 1) (acc ++ pages.getD i []) (by omega) hnext
      simp only [Option.getD_some]
      rw [step, hget, hdrop, List.flatten_cons, List.append_assoc]
    · rw [if_neg hnext]
      have hdropnil : pages.drop (i + 1) = [] := List.drop_eq_nil_of_le (by omega)
      simp only [Option.getD_some]
      rw [hget, hdrop, hdropnil]
      simp

theorem aclChain_all (pages : List (List Acl)) (fuel : Nat) (hfuel : pages.length + 1 ≤ fuel) :
    aclPagesGo (chainAclPages pages) fuel none [] = (pages.flatten, false) := by
  obtain ⟨f, rfl⟩ : ∃ f, fuel = f + 1 := ⟨fuel - 1, by omega⟩
  cases pages with
  | nil => simp [aclPagesGo, chainAclPages]
  | cons p0 rest =>
    simp only [aclPagesGo, chainAclPages, Option.getD_none, Option.getD_some]
    by_cases hnext : 0 + 1 < (p0 :: rest).length
    · rw [if_pos hnext]
      have step := aclChain_go (p0 :: rest) f 1 ([] ++ (p0 :: rest).getD 0 [])
        (by simp only [List.length_cons] at hfuel ⊢; omega) hnext
      simp only [Option.getD_some]
      rw [step]
      simp [List.flatten_cons]
    · rw [if_neg hnext]
      have hrest : rest = [] := by
        simp only [List.length_cons] at hnext
        exact List.eq_nil_of_length_eq_zero (by omega)
      subst hrest
      simp

/-- Claim C10: the destination existence probe `check_folder_exists` returns
`True` if and only if the file-listing call against the destination raises
no error; the number of files found (including zero) has no effect on the
result, so an empty but accessible folder passes the probe, and only an
erroring query makes it return `False`. -/
theorem C10_probe_true_iff_no_error :
    (∀ r : Res HttpError FilesResp, check_folder_exists r = true ↔ ∃ v, r = Res.ok v) ∧
    (∀ v v' : FilesResp, check_folder_exists (Res.ok v) = check_folder_exists (Res.ok v')) ∧
    check_folder_exists (Res.ok ⟨some []⟩) = true ∧
    (∀ e : HttpError, check_folder_exists (Res.err e) = false) := by
  refine ⟨?_, fun v v' => rfl, rfl, fun e => rfl⟩
  intro r
  cases r with
  | ok v => simp [check_folder_exists]
  | err e => simp [check_folder_exists]

/-- Claim C2: when the listing succeeded, a resource whose detail fetch
fails is skipped (contributing no output rows) and collection continues
with every later resource in the original order: the CSV contents of both
`export_groups_to_csv` and `export_groups_settings_to_csv` equal those
computed from the successfully-fetched groups alone; and in the concrete
ten-group scenario where only `g4` always fails, exactly 9 member rows are
produced, for `g1`-`g3` and `g5`-`g10` in traversal order. -/
theorem C2_per_resource_failure_skips :
    (∀ (membersOf : String → Res HttpError (List Member)) (groups : List GwGroup),
        exportGroupsCsvRows membersOf groups =
          exportGroupsCsvRows membersOf
            (groups.filter (fun g =>
              match membersOf g.email with
              | Res.ok _ => true
              | Res.err _ => false))) ∧
    (∀ (settingsOf : String → Option (List (String × String))) (groups : List GwGroup),
        exportGroupsSettingsRows settingsOf groups =
          exportGroupsSettingsRows settingsOf
            (groups.filter (fun g =>
              match settingsOf g.email with
              | some s => !s.isEmpty
              | none => false))) ∧
    exportGroupsCsvRows tenFetch tenGroups =
      groupsHeader ::
        [["g1", "m@example.com", "MEMBER", "ACTIVE"],
         ["g2", "m@example.com", "MEMBER", "ACTIVE"],
         ["g3", "m@example.com", "MEMBER", "ACTIVE"],
         ["g5", "m@example.com", "MEMBER", "ACTIVE"],
         ["g6", "m@example.com", "MEMBER", "ACTIVE"],
         ["g7", "m@example.com", "MEMBER", "ACTIVE"],
         ["g8", "m@example.com", "MEMBER", "ACTIVE"],
         ["g9", "m@example.com", "MEMBER", "ACTIVE"],
         ["g10", "m@example.com", "MEMBER", "ACTIVE"]] ∧
    (exportGroupsCsvRows tenFetch tenGroups).length = 10 := by
  refine ⟨?_, ?_, by decide, by decide⟩
  · intro membersOf groups
    unfold exportGroupsCsvRows
    congr 1
    apply flatten_map_filter
    intro g hg
    cases h : membersOf g.email with
    | ok ms => rw [h] at hg; simp at hg
    | err e => simp [h]
  · intro settingsOf groups
    unfold exportGroupsSettingsRows
    congr 1
    apply filterMap_filter_congr
    intro g
    cases h : settingsOf g.email with
    | none => simp [h]
    | some s =>
      by_cases hs : s.isEmpty <;> simp [h, hs]

/-- Claim C1 counterexample: with every attempt rate-limited (HTTP 429, a
retryable-class error), `get_forwarding_settings` performs exactly its
maximum 5 attempts but then RETURNS the missing marker `(None, None)`
instead of propagating a retry-exhausted error; `get_group_settings`
likewise returns `None` after its 3 attempts. -/
theorem C1_cex_exhaust_returns_missing :
    get_forwarding_settings always429 5 30 = ⟨none, 5, [30, 60, 120, 240, 480]⟩ ∧
    (get_group_settings (fun _ => Res.err SettingsErr.timeout) : CallTrace (Option Unit))
      = ⟨none, 3, [5, 10]⟩ := by decide

/-- Claim C1 (amended): an operation that fails with a retryable-class
error on the first N-1 invocations and succeeds on the Nth, N ≤ max,
makes the fetcher return the success value after exactly N invocations;
when every invocation fails with a retryable-class error the fetcher
performs exactly max invocations and then returns the missing marker
(`(None, None)` for forwarding, `None` for group settings) to its caller
rather than propagating an error. -/
theorem C1_retry_counts :
    (∀ (op : Nat → Res HttpError AutoForwarding) (s : AutoForwarding) (N maxr d : Nat),
        0 < N → N ≤ maxr → s.enabled = true →
        (∀ i, i < N - 1 → ∃ e, op i = Res.err e ∧ e.status = 429) →
        op (N - 1) = Res.ok s →
        (get_forwarding_settings op maxr d).result
            = some (s.emailAddress.getD "N/A", s.disposition.getD "N/A") ∧
        (get_forwarding_settings op maxr d).calls = N) ∧
    (∀ (op : Nat → Res HttpError AutoForwarding) (maxr d : Nat),
        (∀ i, ∃ e, op i = Res.err e ∧ e.status = 429) →
        (get_forwarding_settings op maxr d).result = none ∧
        (get_forwarding_settings op maxr d).calls = maxr) ∧
    (∀ (α : Type) (op : Nat → Res SettingsErr α) (v : α) (N maxr : Nat),
        0 < N → N ≤ maxr →
        (∀ i, i < N - 1 → ∃ e, op i = Res.err e) →
        op (N - 1) = Res.ok v →
        (getGroupSettingsRetry op maxr).result = some v ∧
        (getGroupSettingsRetry op maxr).calls = N) ∧
    (∀ (α : Type) (op : Nat → Res SettingsErr α) (maxr : Nat),
        (∀ i, ∃ e, op i = Res.err e) →
        (getGroupSettingsRetry op maxr).result = none ∧
        (getGroupSettingsRetry op maxr).calls = maxr) := by
  refine ⟨?_, ?_, ?_, ?_⟩
  · intro op s N maxr d hN hmax hs hfail hok
    have h := fwdGo_ok op s hs (N - 1) maxr 0 d (by omega)
      (fun i hi => by simpa using hfail i hi)
      (by simpa using hok)
    unfold get_forwarding_settings
    refine ⟨h.1, ?_⟩
    rw [h.2]; omega
  · intro op maxr d h
    unfold get_forwarding_settings
    rw [fwdGo_exhaust op h maxr 0 d]
    exact ⟨rfl, rfl⟩
  · intro α op v N maxr hN hmax hfail hok
    have h := settingsGo_ok op v maxr (N - 1) maxr 0 (by omega) (by omega)
      (fun i hi => by simpa using hfail i hi)
      (by simpa using hok)
    unfold getGroupSettingsRetry
    refine ⟨h.1, ?_⟩
    rw [h.2]; omega
  · intro α op maxr h
    exact settingsGo_exhaust op maxr h maxr 0 (by omega)

/-- Claim C1 witness: rate-limited once then successful, the forwarding
fetch returns the pair in 2 of 5 attempts; always rate-limited it performs
all 5; a settings fetch that times out once returns the payload in 2 of 3
attempts. -/
theorem C1_retry_counts_witness :
    (get_forwarding_settings fwdOpW 5 30).result = some ("fwd@example.com", "leaveInInbox") ∧
    (get_forwarding_settings fwdOpW 5 30).calls = 2 ∧
    (get_forwarding_settings always429 5 30).calls = 5 ∧
    (getGroupSettingsRetry settingsOpW 3).result = some "groupSettingsPayload" ∧
    (getGroupSettingsRetry settingsOpW 3).calls = 2 := by
  have h := C1_retry_counts
  have h1 := h.1 fwdOpW fwdOk 2 5 30 (by decide) (by decide) (by decide)
    (fun i hi => by interval_cases i; exact ⟨⟨429⟩, rfl, rfl⟩) rfl
  have h2 := h.2.1 always429 5 30 (fun i => ⟨⟨429⟩, rfl, rfl⟩)
  have h3 := h.2.2.1 String settingsOpW "groupSettingsPayload" 2 3 (by decide) (by decide)
    (fun i hi => by interval_cases i; exact ⟨SettingsErr.timeout, rfl⟩) rfl
  exact ⟨h1.1, h1.2, h2.2, h3.1, h3.2⟩

/-- Claim C3 counterexample: `get_group_settings` given an operation that
always fails with HTTP 403 — a fatal/permission-class error in the spec's
taxonomy — invokes it 3 times with two backoff sleeps, not exactly once
with no sleep as the claim states for every wrapped operation. -/
theorem C3_cex_fatal_retried :
    (get_group_settings always403settings).calls = 3 ∧
    (get_group_settings always403settings).sleeps = [5, 10] := by decide

/-- Claim C3 (amended): `get_group_members` propagates a non-503
`HttpError` after exactly one invocation with no sleep, and
`get_forwarding_settings` converts a non-429 `HttpError` to the missing
pair after exactly one invocation with no sleep; but `get_group_settings`
classifies nothing and retries every `HttpError` or `TimeoutError`
(permission errors included), performing all 3 configured attempts. -/
theorem C3_fatal_single_attempt :
    (∀ (op : Nat → Res HttpError MembersPage) (e : HttpError) (r d : Nat),
        0 < r → op 0 = Res.err e → e.status ≠ 503 →
        get_group_members op r d = ⟨Res.err e, 1, []⟩) ∧
    (∀ (op : Nat → Res HttpError AutoForwarding) (e : HttpError) (r d : Nat),
        0 < r → op 0 = Res.err e → e.status ≠ 429 →
        get_forwarding_settings op r d = ⟨none, 1, []⟩) ∧
    (∀ (α : Type) (op : Nat → Res SettingsErr α),
        (∀ i, ∃ e, op i = Res.err e) →
        (get_group_settings op).calls = 3) := by
  refine ⟨?_, ?_, ?_⟩
  · intro op e r d hr h0 hne
    obtain ⟨r', rfl⟩ : ∃ r', r = r' + 1 := ⟨r - 1, by omega⟩
    simp [get_group_members, getGroupMembersGo, h0, hne]
  · intro op e r d hr h0 hne
    obtain ⟨r', rfl⟩ : ∃ r', r = r' + 1 := ⟨r - 1, by omega⟩
    simp [get_forwarding_settings, getForwardingSettingsGo, h0, hne]
  · intro α op h
    exact (settingsGo_exhaust op 3 h 3 0 rfl).2

/-- Claim C3 witness: a 403 on the first attempt gives one invocation in
the members and forwarding fetchers, while the settings fetcher still
performs 3. -/
theorem C3_fatal_single_attempt_witness :
    get_group_members (fun _ => Res.err ⟨403⟩) 3 5 = ⟨Res.err ⟨403⟩, 1, []⟩ ∧
    get_forwarding_settings (fun _ => Res.err ⟨403⟩) 5 30 = ⟨none, 1, []⟩ ∧
    (get_group_settings always403settings).calls = 3 := by
  have h := C3_fatal_single_attempt
  exact ⟨h.1 _ ⟨403⟩ 3 5 (by decide) rfl (by decide),
         h.2.1 _ ⟨403⟩ 5 30 (by decide) rfl (by decide),
         h.2.2 Unit always403settings (fun i => ⟨SettingsErr.http ⟨403⟩, rfl⟩)⟩

/-- Claim C4 counterexample: the retried members fetch of
`gw_groups_backup.py` sleeps a FIXED 5-second delay between attempts: with
every attempt failing 503 its delays are [5, 5], not the exponential
multiplier-2 schedule ([5, 10]) the claim requires of every retried detail
fetch. -/
theorem C4_cex_fixed_delay :
    (get_group_members always503 3 5).sleeps = [5, 5] ∧
    expSleeps 5 2 = [5, 10] ∧
    (get_group_members always503 3 5).sleeps ≠
      expSleeps 5 ((get_group_members always503 3 5).sleeps.length) := by decide

/-- Claim C4 (amended): the backoff schedule differs per fetcher:
`get_forwarding_settings` is exponential with multiplier 2 from the
configured base (the delay before attempt k+1 is base·2^(k-1));
`get_group_settings` grows linearly, sleeping 5·(attempt+1) seconds
(concretely [5, 10] across its 3 attempts); and `get_group_members`
sleeps a fixed `delay` seconds before every retry. -/
theorem C4_backoff_schedules :
    (∀ (op : Nat → Res HttpError AutoForwarding) (r d : Nat),
        (∀ i, ∃ e, op i = Res.err e ∧ e.status = 429) →
        (get_forwarding_settings op r d).sleeps = expSleeps d r) ∧
    (∀ (n d : Nat), expSleeps d n = (List.range n).map (fun k => d * 2 ^ k)) ∧
    (∀ (α : Type) (op : Nat → Res SettingsErr α),
        (∀ i, ∃ e, op i = Res.err e) →
        (get_group_settings op).sleeps = [5, 10]) ∧
    (∀ (op : Nat → Res HttpError MembersPage) (r d : Nat), 0 < r →
        (∀ i, ∃ e, op i = Res.err e ∧ e.status = 503) →
        (get_group_members op r d).sleeps = List.replicate (r - 1) d) := by
  refine ⟨?_, fun n d => expSleeps_eq_map n d, ?_, ?_⟩
  · intro op r d h
    unfold get_forwarding_settings
    rw [fwdGo_exhaust op h r 0 d]
  · intro α op h
    obtain ⟨e0, h0⟩ := h 0
    obtain ⟨e1, h1⟩ := h 1
    obtain ⟨e2, h2⟩ := h 2
    simp [get_group_settings, getGroupSettingsRetry, getGroupSettingsGo, h0, h1, h2]
  · intro op r d hr h
    unfold get_group_members
    rw [membersGo_exhaust op r d h r 0 hr (by omega)]

/-- Claim C4 witness: the three schedules at their default parameters. -/
theorem C4_backoff_schedules_witness :
    (get_forwarding_settings always429 5 30).sleeps = [30, 60, 120, 240, 480] ∧
    expSleeps 30 5 = (List.range 5).map (fun k => 30 * 2 ^ k) ∧
    (get_group_settings (fun _ => Res.err SettingsErr.timeout) : CallTrace (Option Unit)).sleeps
      = [5, 10] ∧
    (get_group_members always503 3 5).sleeps = List.replicate 2 5 := by
  have h := C4_backoff_schedules
  refine ⟨?_, h.2.1 5 30, ?_, ?_⟩
  · rw [h.1 always429 5 30 (fun i => ⟨⟨429⟩, rfl, rfl⟩)]
    decide
  · exact h.2.2.1 Unit _ (fun i => ⟨SettingsErr.timeout, rfl⟩)
  · rw [h.2.2.2 always503 3 5 (by decide) (fun i => ⟨⟨503⟩, rfl, rfl⟩)]

/-- Claim C5 counterexample: against a members endpoint whose listing has
two pages, `get_group_members` — which sends no page token and never reads
`nextPageToken` — returns only the first page (Alice), while the spec-side
collector following the cursor returns both members: the members-per-group
report emits only the first page of a group's detail items. -/
theorem C5_cex_members_first_page_only :
    (get_group_members (fun _ => Res.ok (membersPagedApi none)) 3 5).result
      = Res.ok (some [memberAlice]) ∧
    specMembersAllPages membersPagedApi 2 none = [memberAlice, memberBob] ∧
    some [memberAlice] ≠ some [memberAlice, memberBob] := by decide

/-- Claim C5 (amended): inner pagination holds for permissions-per-drive —
the ACL loop of `export_shared_drive_acls` re-issues `permissions().list`
with the returned cursor until it is empty, collecting every page's
entries in pagination order — but not for members-per-group:
`get_group_members` issues a single cursor-less request and returns only
that one response's members. -/
theorem C5_inner_pagination :
    (∀ (pages : List (List Acl)) (fuel : Nat), pages.length + 1 ≤ fuel →
        aclPagesGo (chainAclPages pages) fuel none [] = (pages.flatten, false)) ∧
    (∀ (page : MembersPage),
        (get_group_members (fun _ => Res.ok page) 3 5).result
          = Res.ok (some (page.members.getD []))) := by
  refine ⟨fun pages fuel h => aclChain_all pages fuel h, ?_⟩
  intro page
  simp [get_group_members, getGroupMembersGo]

/-- Claim C5 witness: a two-page ACL chain is fully collected; the members
fetch returns just the cursor-less response. -/
theorem C5_inner_pagination_witness :
    aclPagesGo (chainAclPages [[aclA], [aclB]]) 3 none [] = ([aclA, aclB], false) ∧
    (get_group_members (fun _ => Res.ok (membersPagedApi none)) 3 5).result
      = Res.ok (some [memberAlice]) := by
  have h := C5_inner_pagination
  refine ⟨?_, h.2 (membersPagedApi none)⟩
  rw [h.1 [[aclA], [aclB]] 3 (by decide)]
  decide

/-- Claim C6 counterexample: in `gw_export_users_with_forwarding.py` a
failing second listing page does NOT fail the collection: the first page's
users are kept (the `except Exception` absorbs the error) and the run
continues, producing and uploading an artifact from the partial listing. -/
theorem C6_cex_partial_listing_continues :
    get_active_users cexUserFetch 5 = [userU1] ∧
    forwarding_main cexUserFetch (fun _ => some ("f@example.com", "leaveInInbox"))
        (Res.ok "file1") 5
      = ⟨⟨0, 1, 1, 1⟩,
         some [forwardingHeader,
               ["u1@example.com", "User One", "f@example.com", "leaveInInbox"]],
         true⟩ := by decide

/-- Claim C6 (amended): in `gw_groups_backup.py` a failing listing page
propagates its `HttpError` out of `get_google_groups`, so the run aborts
with no CSV and no upload; but in `gw_export_users_with_forwarding.py` the
listing loop absorbs the failure and continues with the users gathered
from the pages fetched so far. -/
theorem C6_listing_failure_policy :
    (∀ (κ : Type) (fetch : Option κ → Res HttpError (GroupsPage κ)) (e : HttpError)
        (fuel : Nat) (tok : Option κ) (acc : List GwGroup),
        fetch tok = Res.err e →
        getGoogleGroupsGo fetch (fuel + 1) tok acc = Res.err e) ∧
    (∀ (κ : Type) (probe : Res HttpError FilesResp)
        (fetch : Option κ → Res HttpError (GroupsPage κ))
        (membersOf : String → Res HttpError (List Member))
        (uploadOp : Nat → Res UploadErr String) (e : HttpError) (fuel : Nat),
        check_folder_exists probe = true →
        fetch none = Res.err e →
        groups_backup_main probe fetch membersOf uploadOp (fuel + 1)
          = ⟨⟨1, 1, 0, 0⟩, none, false⟩) ∧
    (∀ (fetch : Option String → Res HttpError (UsersPage String)) (us : List WsUser)
        (t : String) (e : HttpError) (fuel : Nat),
        fetch none = Res.ok ⟨some us, some t⟩ →
        fetch (some t) = Res.err e →
        get_active_users fetch (fuel + 2) = us.filter (fun u => !u.suspended)) := by
  refine ⟨?_, ?_, ?_⟩
  · intro κ fetch e fuel tok acc h
    simp [getGoogleGroupsGo, h]
  · intro κ probe fetch membersOf uploadOp e fuel hprobe h
    have hlist : get_google_groups fetch (fuel + 1) = Res.err e := by
      simp [get_google_groups, getGoogleGroupsGo, h]
    simp [groups_backup_main, hprobe, hlist]
  · intro fetch us t e fuel h1 h2
    simp [get_active_users, getActiveUsersGo, h1, h2]

/-- Claim C6 witness: a first-page listing failure aborts the groups-backup
run; a second-page failure in the forwarding export keeps page one's
user. -/
theorem C6_listing_failure_policy_witness :
    getGoogleGroupsGo
        (fun (_ : Option String) => (Res.err ⟨500⟩ : Res HttpError (GroupsPage String)))
        3 none [] = Res.err ⟨500⟩ ∧
    groups_backup_main (Res.ok ⟨some []⟩)
        (fun (_ : Option String) => (Res.err ⟨500⟩ : Res HttpError (GroupsPage String)))
        tenFetch alwaysFailUpload 3
      = ⟨⟨1, 1, 0, 0⟩, none, false⟩ ∧
    get_active_users cexUserFetch 5 = [userU1] := by
  have h := C6_listing_failure_policy
  refine ⟨h.1 String _ ⟨500⟩ 2 none [] rfl,
          h.2.1 String _ _ tenFetch alwaysFailUpload ⟨500⟩ 2 rfl rfl, ?_⟩
  rw [h.2.2 cexUserFetch [userU1] "p2" ⟨503⟩ 3 rfl rfl]
  decide

/-- Claim C7 counterexample: when the drive listing succeeds with zero
shared drives, `export_shared_drive_acls` returns before the CSV file is
even created: no header-only file is written and no upload is attempted,
although the resource listing succeeded. -/
theorem C7_cex_zero_drives_no_file :
    export_shared_drive_acls emptyDriveFetch emptyAclFetch (Res.ok "fileId") 5
      = ⟨⟨0, 1, 0, 0⟩, none, false⟩ := by decide

/-- Claim C7 (amended): `export_groups_to_csv` always writes the header
first and hands the file to the uploader — with zero groups or with every
detail fetch failing the file holds exactly the header row; the
shared-drives export also produces a header-only file when drives exist
but every ACL fetch fails, yet with zero drives it writes no file at
all. -/
theorem C7_header_always_written :
    (∀ (membersOf : String → Res HttpError (List Member)),
        exportGroupsCsvRows membersOf [] = [groupsHeader]) ∧
    (∀ (membersOf : String → Res HttpError (List Member)) (groups : List GwGroup),
        (∀ g, g ∈ groups → ∃ e, membersOf g.email = Res.err e) →
        exportGroupsCsvRows membersOf groups = [groupsHeader]) ∧
    (∀ (κ : Type) (probe : Res HttpError FilesResp)
        (fetch : Option κ → Res HttpError (GroupsPage κ))
        (membersOf : String → Res HttpError (List Member))
        (uploadOp : Nat → Res UploadErr String) (fuel : Nat) (gs : List GwGroup),
        check_folder_exists probe = true →
        get_google_groups fetch fuel = Res.ok gs →
        (groups_backup_main probe fetch membersOf uploadOp fuel).csv
            = some (exportGroupsCsvRows membersOf gs) ∧
        (groups_backup_main probe fetch membersOf uploadOp fuel).trace.uploadCalls = 1) ∧
    (∀ (κ κ' : Type) (driveFetch : Option κ → Res HttpError (DrivesPage κ))
        (aclFetch : SharedDrive → Option κ' → Res HttpError (AclsPage κ'))
        (uploadOp : Res HttpError String) (fuel : Nat) (drives : List SharedDrive),
        listSharedDrivesGo driveFetch fuel none [] = Res.ok drives →
        drives.isEmpty = false →
        (∀ d tok, ∃ e, aclFetch d tok = Res.err e) →
        (export_shared_drive_acls driveFetch aclFetch uploadOp fuel).csv
          = some [aclHeader]) := by
  refine ⟨fun membersOf => rfl, ?_, ?_, ?_⟩
  · intro membersOf groups h
    unfold exportGroupsCsvRows
    have hnil : (groups.map (fun g =>
        match membersOf g.email with
        | Res.ok ms => ms.map (memberRow g.email)
        | Res.err _ => [])).flatten = [] := by
      rw [List.flatten_eq_nil_iff]
      intro r hr
      obtain ⟨g, hg, rfl⟩ := List.mem_map.mp hr
      obtain ⟨e, he⟩ := h g hg
      simp [he]
    rw [hnil]
  · intro κ probe fetch membersOf uploadOp fuel gs hprobe hlist
    simp [groups_backup_main, hprobe, hlist]
  · intro κ κ' driveFetch aclFetch uploadOp fuel drives hlist hne hfail
    have hrows : ∀ d ∈ drives, (aclPagesGo (aclFetch d) fuel none []).1 = [] := by
      intro d _
      cases fuel with
      | zero => rfl
      | succ f =>
        obtain ⟨e, he⟩ := hfail d none
        simp [aclPagesGo, he]
    have hflat : (drives.map (fun d =>
        ((aclPagesGo (aclFetch d) fuel none []).1).map (aclRow d))).flatten = [] := by
      rw [List.flatten_eq_nil_iff]
      intro r hr
      obtain ⟨d, hd, rfl⟩ := List.mem_map.mp hr
      rw [hrows d hd]
      rfl
    simp [export_shared_drive_acls, hlist, hne, hflat]

/-- Claim C7 witness: header-only files in the proven cases; no file in the
zero-drive shared-drives case is the counterexample's subject. -/
theorem C7_header_always_written_witness :
    exportGroupsCsvRows tenFetch [] = [groupsHeader] ∧
    exportGroupsCsvRows (fun _ => Res.err ⟨403⟩) tenGroups = [groupsHeader] ∧
    (groups_backup_main (Res.ok ⟨some []⟩)
        (fun (_ : Option String) => Res.ok ⟨some tenGroups, none⟩)
        tenFetch alwaysFailUpload 2).csv = some (exportGroupsCsvRows tenFetch tenGroups) ∧
    (export_shared_drive_acls oneDriveFetch failAclFetch (Res.ok "id") 3).csv
      = some [aclHeader] := by
  have h := C7_header_always_written
  refine ⟨h.1 tenFetch, h.2.1 _ tenGroups (fun g hg => ⟨⟨403⟩, rfl⟩),
          (h.2.2.1 String (Res.ok ⟨some []⟩)
            (fun (_ : Option String) => Res.ok ⟨some tenGroups, none⟩)
            tenFetch alwaysFailUpload 2 tenGroups (by decide) (by decide)).1,
          h.2.2.2 String String oneDriveFetch failAclFetch (Res.ok "id") 3 [driveOne]
            (by decide) (by decide) (fun d tok => ⟨⟨500⟩, rfl⟩)⟩

/-- Claim C8 counterexample: a run of `export_shared_drive_acls` performs
no destination existence probe at all, yet issues the listing (and here
also an upload): the probe is not performed before listing in every run. -/
theorem C8_cex_no_probe_in_acl_export :
    (export_shared_drive_acls oneDriveFetch emptyAclFetch (Res.ok "fileId") 3).trace.probeCalls
      = 0 ∧
    (export_shared_drive_acls oneDriveFetch emptyAclFetch (Res.ok "fileId") 3).trace.listingCalls
      = 1 ∧
    (export_shared_drive_acls oneDriveFetch emptyAclFetch (Res.ok "fileId") 3).trace.uploadCalls
      = 1 := by decide

/-- Claim C8 (amended): `gw_groups_backup.py` probes first and fails fast —
with an unreachable destination the run performs the probe and then no
listing, detail or upload call — but `gw_export_shared_drives_acls.py`
never probes at all. -/
theorem C8_probe_gates_run :
    (∀ (κ : Type) (e : HttpError) (fetch : Option κ → Res HttpError (GroupsPage κ))
        (membersOf : String → Res HttpError (List Member))
        (uploadOp : Nat → Res UploadErr String) (fuel : Nat),
        groups_backup_main (Res.err e) fetch membersOf uploadOp fuel
          = ⟨⟨1, 0, 0, 0⟩, none, false⟩) ∧
    (∀ (κ κ' : Type) (driveFetch : Option κ → Res HttpError (DrivesPage κ))
        (aclFetch : SharedDrive → Option κ' → Res HttpError (AclsPage κ'))
        (uploadOp : Res HttpError String) (fuel : Nat),
        (export_shared_drive_acls driveFetch aclFetch uploadOp fuel).trace.probeCalls = 0) := by
  constructor
  · intro κ e fetch membersOf uploadOp fuel
    simp [groups_backup_main, check_folder_exists]
  · intro κ κ' driveFetch aclFetch uploadOp fuel
    cases h : listSharedDrivesGo driveFetch fuel none [] with
    | err e => simp [export_shared_drive_acls, h]
    | ok drives =>
      by_cases hd : drives.isEmpty <;> simp [export_shared_drive_acls, h, hd]

/-- Claim C9 counterexample: the single-attempt `upload_to_drive` of the
two export scripts performs exactly one attempt on a transient HTTP
failure, sleeps never, and returns normally — the failure is silently
absorbed and the forwarding run completes without an archived artifact. -/
theorem C9_cex_upload_failure_absorbed :
    upload_to_drive (Res.err ⟨503⟩) = ⟨false, 1, []⟩ ∧
    forwarding_main (fun (_ : Option String) => Res.ok ⟨some [userU1], none⟩)
        (fun _ => some ("f@example.com", "leaveInInbox")) (Res.err ⟨503⟩) 3
      = ⟨⟨0, 1, 1, 1⟩,
         some [forwardingHeader,
               ["u1@example.com", "User One", "f@example.com", "leaveInInbox"]],
         false⟩ := by decide

/-- Claim C9 (amended): the backup scripts' `upload_file_to_drive` retries
transient failures with a fixed 5-second delay up to 3 attempts and
re-raises once exhausted (the run then terminates in failure), and returns
after a single attempt on success; but the export scripts' single-attempt
`upload_to_drive` absorbs its failure and the run completes without an
artifact. -/
theorem C9_upload_retry_policy :
    (∀ (op : Nat → Res UploadErr String) (err : UploadErr),
        (∀ i, op i = Res.err err) →
        upload_file_to_drive op 3 5 = ⟨Res.err err, 3, [5, 5]⟩) ∧
    (∀ (op : Nat → Res UploadErr String) (fileId : String),
        op 0 = Res.ok fileId →
        upload_file_to_drive op 3 5 = ⟨Res.ok (some fileId), 1, []⟩) ∧
    (∀ e : HttpError, upload_to_drive (Res.err e) = ⟨false, 1, []⟩) := by
  refine ⟨?_, ?_, fun e => rfl⟩
  · intro op err h
    simp [upload_file_to_drive, uploadFileToDriveGo, h 0, h 1, h 2]
  · intro op fileId h
    simp [upload_file_to_drive, uploadFileToDriveGo, h]

/-- Claim C9 witness: the retrying uploader at an always-failing and an
immediately-successful operation, and the absorbing uploader at a
failure. -/
theorem C9_upload_retry_policy_witness :
    upload_file_to_drive alwaysFailUpload 3 5 = ⟨Res.err (UploadErr.http ⟨503⟩), 3, [5, 5]⟩ ∧
    upload_file_to_drive (fun _ => Res.ok "newFileId") 3 5 = ⟨Res.ok (some "newFileId"), 1, []⟩ ∧
    upload_to_drive (Res.err ⟨500⟩) = ⟨false, 1, []⟩ := by
  have h := C9_upload_retry_policy
  exact ⟨h.1 alwaysFailUpload _ (fun i => rfl), h.2.1 _ "newFileId" rfl, h.2.2 ⟨500⟩⟩
